import Mathlib

/-!
Shallow embedding of the `log-analyzer` core (src/model.rs, src/parse.rs,
src/analyze.rs, src/report.rs) and proofs about it.

Strings are modelled as `List Char`.  Timestamps are modelled as a record of
calendar fields (chrono's `NaiveDateTime` is a naive date plus time of day with
nanoseconds); its ordering is lexicographic on the fields, which agrees with
chrono's `Ord` on all values produced by the validated constructors used here.
`u64` counters are modelled as `Nat` (the program only ever increments them).
-/

deriving instance DecidableEq for Except

namespace LogAnalyzer

/-- Severity level of a log record (src/model.rs, `enum Level`). -/
inductive Level where
  | info
  | warning
  | error
deriving DecidableEq, Repr

/-- Naive calendar date-time (chrono `NaiveDateTime`): calendar fields plus a
nanosecond component, no timezone. -/
structure NaiveDateTime where
  year : Nat
  month : Nat
  day : Nat
  hour : Nat
  minute : Nat
  second : Nat
  nano : Nat
deriving DecidableEq, Repr

/-- The fields of a `NaiveDateTime`, most significant first; used to derive the
lexicographic order that chrono's `Ord` implements. -/
def NaiveDateTime.fieldList (t : NaiveDateTime) : List Nat :=
  [t.year, t.month, t.day, t.hour, t.minute, t.second, t.nano]

theorem NaiveDateTime.fieldList_injective : Function.Injective NaiveDateTime.fieldList := by
  intro a b h
  cases a; cases b
  simp only [NaiveDateTime.fieldList, List.cons.injEq, and_true] at h
  obtain ⟨h1, h2, h3, h4, h5, h6, h7⟩ := h
  simp_all

instance : LinearOrder NaiveDateTime :=
  LinearOrder.lift' NaiveDateTime.fieldList NaiveDateTime.fieldList_injective

/-- A successfully parsed log line (src/model.rs, `struct LogEntry`). -/
structure LogEntry where
  ts : NaiveDateTime
  level : Level
  message : List Char
deriving DecidableEq, Repr

/-! ### Model of the chrono timestamp parsing used by src/parse.rs -/

/-- Numeric value of a decimal digit character. -/
def digitVal (c : Char) : Nat := c.toNat - '0'.toNat

/-- Value of a string of decimal digits. -/
def digitsToNat (ds : List Char) : Nat := ds.foldl (fun n c => n * 10 + digitVal c) 0

/-- Consume exactly `n` leading decimal digits, returning them and the rest. -/
def takeDigitsC : Nat → List Char → Option (List Char × List Char)
  | 0, s => some ([], s)
  | _ + 1, [] => none
  | n + 1, c :: s =>
    if c.isDigit then (takeDigitsC n s).map (fun p => (c :: p.1, p.2)) else none

/-- Consume one expected character. -/
def expectC (c : Char) : List Char → Option (List Char)
  | [] => none
  | d :: s => if d = c then some s else none

/-- chrono's `%.f` (`Fixed::Nanosecond`): an optional fractional-second part.
When present it is a `'.'` or `','` followed by at least one digit; all
consecutive digits are consumed and the first nine (right-padded with zeros)
give the nanosecond value.  A separator with no digit after it is a parse
error, not a missing fraction. -/
def parseDotF (s : List Char) : Option (Nat × List Char) :=
  match s with
  | c :: rest =>
    if c = '.' ∨ c = ',' then
      let ds := rest.takeWhile Char.isDigit
      if ds.isEmpty then none
      else some (digitsToNat (ds.take 9) * 10 ^ (9 - min ds.length 9), rest.dropWhile Char.isDigit)
    else some (0, s)
  | [] => some (0, [])

/-- Gregorian leap-year test (as validated by chrono). -/
def isLeapYear (y : Nat) : Bool := y % 4 = 0 && (y % 100 ≠ 0 || y % 400 = 0)

/-- Number of days in a month (as validated by chrono). -/
def daysInMonth (y m : Nat) : Nat :=
  if m = 2 then (if isLeapYear y then 29 else 28)
  else if m = 4 ∨ m = 6 ∨ m = 9 ∨ m = 11 then 30
  else 31

/-- chrono's field validation (`Parsed::to_naive_datetime`): month, day and
time-of-day fields must be in calendar range.  (chrono additionally accepts
`60` as a leap second, folding it into the nanosecond field; no behaviour the
repository exercises depends on that, and it is not modelled.) -/
def mkValidDateTime (y mo d h mi s nano : Nat) : Option NaiveDateTime :=
  if 1 ≤ mo ∧ mo ≤ 12 ∧ 1 ≤ d ∧ d ≤ daysInMonth y mo ∧ h ≤ 23 ∧ mi ≤ 59 ∧ s ≤ 59 then
    some ⟨y, mo, d, h, mi, s, nano⟩
  else none

/-- Model of chrono `NaiveDateTime::parse_from_str` for the fixed layouts that
the repository uses: `%Y-%m-%d %H:%M:%S%.f` (`sep = ' '`, `withFrac = true`),
`%Y-%m-%dT%H:%M:%S%.f` (`sep = 'T'`), and `%Y-%m-%dT%H:%M:%S`
(`withFrac = false`).  The whole input must be consumed (chrono's `TOO_LONG`
check).  `%Y` is modelled as exactly four digits: every string reaching this
function is produced by the `\d{4}-…` regex shapes or by formatting a
four-digit year. -/
def parseYmdHms (sep : Char) (withFrac : Bool) (s0 : List Char) : Option NaiveDateTime :=
  match takeDigitsC 4 s0 with
  | none => none
  | some (y, s) =>
  match expectC '-' s with
  | none => none
  | some s =>
  match takeDigitsC 2 s with
  | none => none
  | some (mo, s) =>
  match expectC '-' s with
  | none => none
  | some s =>
  match takeDigitsC 2 s with
  | none => none
  | some (d, s) =>
  match expectC sep s with
  | none => none
  | some s =>
  match takeDigitsC 2 s with
  | none => none
  | some (h, s) =>
  match expectC ':' s with
  | none => none
  | some s =>
  match takeDigitsC 2 s with
  | none => none
  | some (mi, s) =>
  match expectC ':' s with
  | none => none
  | some s =>
  match takeDigitsC 2 s with
  | none => none
  | some (sec, s) =>
  match (if withFrac then parseDotF s else some (0, s)) with
  | none => none
  | some (nano, s) =>
  if s.isEmpty then
    mkValidDateTime (digitsToNat y) (digitsToNat mo) (digitsToNat d)
      (digitsToNat h) (digitsToNat mi) (digitsToNat sec) nano
  else none

/-- Rust `str::split_once('Z')` keeping only the head before the first `'Z'`. -/
def splitOnceZ (s : List Char) : Option (List Char) :=
  if 'Z' ∈ s then some (s.takeWhile (fun c => c ≠ 'Z')) else none

/-- src/parse.rs `parse_ts`: try the three chrono formats in order, then as a
fallback strip a trailing `'Z'` timezone indicator and retry the `T`-separated
fractional format. -/
def parse_ts (ts : List Char) : Option NaiveDateTime :=
  match parseYmdHms ' ' true ts with
  | some dt => some dt
  | none =>
    match parseYmdHms 'T' true ts with
    | some dt => some dt
    | none =>
      match parseYmdHms 'T' false ts with
      | some dt => some dt
      | none =>
        match splitOnceZ ts with
        | some head => parseYmdHms 'T' true head
        | none => none

theorem parse_ts_comma_fraction : parse_ts ("2025-09-05 14:32:10,123".data) = some ⟨2025, 9, 5, 14, 32, 10, 123000000⟩ := by decide
theorem parse_ts_z_marker : parse_ts ("2025-09-05T14:32:10Z".data) = some ⟨2025, 9, 5, 14, 32, 10, 0⟩ := by decide
theorem parse_ts_offset_marker : parse_ts ("2025-09-05T14:32:10+02:00".data) = none := by decide
theorem parse_ts_bad_month : parse_ts ("2025-13-05 14:32:10".data) = none := by decide

/-! ### Models of the three line-shape regexes of `DefaultLogParser::new`

The `regex` crate implements leftmost-first (Perl-like) match semantics.  Each
pattern below is anchored `^…$` and is translated into a deterministic matcher;
wherever the regex engine could backtrack, the doc comment of the relevant
helper argues that the deterministic choice gives the same overall result.
Rust's `\s` (Unicode whitespace) is modelled by `Char.isWhitespace`
(space/tab/CR/LF), which covers every whitespace character the repository's
patterns are exercised with. -/

/-- Whitespace `\s+`: at least one whitespace character, consumed greedily.
Greediness is exact: every token that can follow (`INFO…`, digits, `[`) starts
with a non-whitespace character, so the engine never gives back characters. -/
def ws1 : List Char → Option (List Char)
  | [] => none
  | c :: rest => if c.isWhitespace then some (rest.dropWhile Char.isWhitespace) else none

/-- The bare level alternation `INFO|ERROR|WARNING|WARN`, in regex order. -/
def levelAltsBare : List (List Char) := ["INFO".data, "ERROR".data, "WARNING".data, "WARN".data]

/-- Match the level alternation by first prefix.  The only overlapping pair is
`WARNING`/`WARN`: when the text starts with `WARNING` and the continuation
fails, retrying with `WARN` leaves the continuation at `ING…`, which can match
neither `\s+` nor `]`, so first-prefix selection is equivalent to the engine's
leftmost-first backtracking. -/
def levelTokBare (s : List Char) : Option (List Char × List Char) :=
  (levelAltsBare.find? (fun t => t.isPrefixOf s)).map (fun t => (t, s.drop t.length))

/-- Pattern 1's optional fraction `(?:[.,]\d{1,6})?` followed by `\s+`.  If a
separator is present it must be followed by 1–6 digits and then a non-digit;
with 7+ digits every backtracking choice leaves a digit or the separator in
front of `\s+`, so the whole pattern fails (`none`). -/
def p1Frac (s : List Char) : Option (List Char × List Char) :=
  match s with
  | c :: rest =>
    if c = '.' ∨ c = ',' then
      let ds := rest.takeWhile Char.isDigit
      if 1 ≤ ds.length ∧ ds.length ≤ 6 then some (c :: ds, rest.dropWhile Char.isDigit)
      else none
    else some ([], c :: rest)
  | [] => some ([], [])

/-- Pattern 1: `^(?P<ts>\d{4}-\d{2}-\d{2}[ T]\d{2}:\d{2}:\d{2}(?:[.,]\d{1,6})?)\s+(?P<level>INFO|ERROR|WARNING|WARN)\s+(?P<msg>.*)$`.
Returns the `ts`, `level` and `msg` captures.  `.` does not match `\n`, so the
match fails if the message part contains a newline. -/
def p1Match (l : List Char) : Option (List Char × List Char × List Char) :=
  match takeDigitsC 4 l with
  | none => none
  | some (d4, s) =>
  match expectC '-' s with
  | none => none
  | some s =>
  match takeDigitsC 2 s with
  | none => none
  | some (mo2, s) =>
  match expectC '-' s with
  | none => none
  | some s =>
  match takeDigitsC 2 s with
  | none => none
  | some (dy2, s) =>
  match s with
  | [] => none
  | sep :: s =>
  if sep = ' ' ∨ sep = 'T' then
    match takeDigitsC 2 s with
    | none => none
    | some (h2, s) =>
    match expectC ':' s with
    | none => none
    | some s =>
    match takeDigitsC 2 s with
    | none => none
    | some (mi2, s) =>
    match expectC ':' s with
    | none => none
    | some s =>
    match takeDigitsC 2 s with
    | none => none
    | some (se2, s) =>
    match p1Frac s with
    | none => none
    | some (frac, s) =>
    match ws1 s with
    | none => none
    | some s =>
    match levelTokBare s with
    | none => none
    | some (lvl, s) =>
    match ws1 s with
    | none => none
    | some s =>
    if s.contains '\n' then none
    else some (d4 ++ '-' :: mo2 ++ '-' :: dy2 ++ sep :: h2 ++ ':' :: mi2 ++ ':' :: se2 ++ frac, lvl, s)
  else none

/-- Pattern 2's optional fraction `(?:\.\d+)?`: a dot followed by at least one
digit, greedily; a dot with no digit leaves the dot unconsumed (the group is
skipped) and the match fails later at `\[`. -/
def p2Frac (s : List Char) : Option (List Char × List Char) :=
  match s with
  | '.' :: rest =>
    let ds := rest.takeWhile Char.isDigit
    if ds.isEmpty then some ([], '.' :: rest)
    else some ('.' :: ds, rest.dropWhile Char.isDigit)
  | _ => some ([], s)

/-- Offset alternative `[+-]\d{2}:?\d{2}` after its sign character. -/
def p2TzOffset (c : Char) (rest : List Char) : Option (List Char × List Char) :=
  match rest with
  | a :: b :: more =>
    if a.isDigit ∧ b.isDigit then
      match more with
      | ':' :: d1 :: d2 :: r2 =>
        if d1.isDigit ∧ d2.isDigit then some ([c, a, b, ':', d1, d2], r2) else none
      | d1 :: d2 :: r2 =>
        if d1.isDigit ∧ d2.isDigit then some ([c, a, b, d1, d2], r2) else none
      | _ => none
    else none
  | _ => none

/-- Pattern 2's optional timezone group `(?:Z|[+-]\d{2}:?\d{2})?`.  If the group
cannot match it is skipped; the unconsumed `Z`/sign character then makes the
following `\s*\[` fail, exactly as under backtracking. -/
def p2Tz (s : List Char) : Option (List Char × List Char) :=
  match s with
  | 'Z' :: rest => some (['Z'], rest)
  | c :: rest =>
    if c = '+' ∨ c = '-' then
      match p2TzOffset c rest with
      | some r => some r
      | none => some ([], c :: rest)
    else some ([], c :: rest)
  | [] => some ([], [])

/-- Pattern 2: `^(?P<ts>\d{4}-\d{2}-\d{2}T\d{2}:\d{2}:\d{2}(?:\.\d+)?(?:Z|[+-]\d{2}:?\d{2})?)\s*\[(?P<level>INFO|ERROR|WARNING|WARN)\]\s*(?P<msg>.*)$`.
The `ts` capture includes the fraction and the timezone marker. -/
def p2Match (l : List Char) : Option (List Char × List Char × List Char) :=
  match takeDigitsC 4 l with
  | none => none
  | some (d4, s) =>
  match expectC '-' s with
  | none => none
  | some s =>
  match takeDigitsC 2 s with
  | none => none
  | some (mo2, s) =>
  match expectC '-' s with
  | none => none
  | some s =>
  match takeDigitsC 2 s with
  | none => none
  | some (dy2, s) =>
  match expectC 'T' s with
  | none => none
  | some s =>
  match takeDigitsC 2 s with
  | none => none
  | some (h2, s) =>
  match expectC ':' s with
  | none => none
  | some s =>
  match takeDigitsC 2 s with
  | none => none
  | some (mi2, s) =>
  match expectC ':' s with
  | none => none
  | some s =>
  match takeDigitsC 2 s with
  | none => none
  | some (se2, s) =>
  match p2Frac s with
  | none => none
  | some (frac, s) =>
  match p2Tz s with
  | none => none
  | some (tz, s) =>
  match expectC '[' (s.dropWhile Char.isWhitespace) with
  | none => none
  | some s =>
  match levelTokBare s with
  | none => none
  | some (lvl, s) =>
  match expectC ']' s with
  | none => none
  | some s =>
  if (s.dropWhile Char.isWhitespace).contains '\n' then none
  else some (d4 ++ '-' :: mo2 ++ '-' :: dy2 ++ 'T' :: h2 ++ ':' :: mi2 ++ ':' :: se2 ++ frac ++ tz,
    lvl, s.dropWhile Char.isWhitespace)

/-- The twelve month-name alternatives of pattern 3, in regex order. -/
def monNames : List (List Char) :=
  ["Jan".data, "Feb".data, "Mar".data, "Apr".data, "May".data, "Jun".data,
   "Jul".data, "Aug".data, "Sep".data, "Oct".data, "Nov".data, "Dec".data]

/-- Pattern 3's day `\d{1,2}` (greedy) followed by `\s+`: one or two digits; a
third digit makes every backtracking choice fail, since the following `\s+`
would have to match a digit. -/
def p3Day (s : List Char) : Option (List Char × List Char) :=
  match s with
  | a :: b :: rest =>
    if a.isDigit then
      if b.isDigit then
        match rest with
        | c :: _ => if c.isDigit then none else some ([a, b], rest)
        | [] => some ([a, b], [])
      else some ([a], b :: rest)
    else none
  | [a] => if a.isDigit then some ([a], []) else none
  | [] => none

/-- Pattern 3's time-of-day `\d{2}:\d{2}:\d{2}`, returned as its capture. -/
def p3Time (s0 : List Char) : Option (List Char × List Char) :=
  match takeDigitsC 2 s0 with
  | none => none
  | some (h2, s) =>
  match expectC ':' s with
  | none => none
  | some s =>
  match takeDigitsC 2 s with
  | none => none
  | some (m2, s) =>
  match expectC ':' s with
  | none => none
  | some s =>
  match takeDigitsC 2 s with
  | none => none
  | some (s2, s) => some (h2 ++ ':' :: m2 ++ ':' :: s2, s)

/-- Does the list avoid carriage returns and newlines (for `[^\r\n]*`)? -/
def noCRLF (s : List Char) : Bool := s.all (fun c => c ≠ '\r' ∧ c ≠ '\n')

/-- Continuation `.*?\s(?P<msg>[^\r\n]*)$` after the level token: lazily find
the first whitespace character whose entire suffix is free of CR/LF; the msg
capture is that suffix.  `.` cannot skip past a newline (but `\s` may match
it). -/
def p3Tail : List Char → Option (List Char)
  | [] => none
  | c :: rest =>
    if c.isWhitespace ∧ noCRLF rest then some rest
    else if c = '\n' then none
    else p3Tail rest

/-- Pattern 3's level alternation, bare and bracketed, in regex order. -/
def p3Alts : List (List Char) :=
  ["INFO".data, "ERROR".data, "WARNING".data, "WARN".data,
   "[INFO]".data, "[ERROR]".data, "[WARNING]".data, "[WARN]".data]

/-- At one position, try the eight level alternatives in regex order; an
alternative succeeds only if its continuation `p3Tail` also succeeds
(backtracking into the alternation). -/
def p3Try (s : List Char) : Option (List Char × List Char) :=
  p3Alts.findSome? (fun t =>
    if t.isPrefixOf s then (p3Tail (s.drop t.length)).map (fun m => (t, m)) else none)

/-- The lazy gap `.*?` before the level group: scan left-to-right for the first
position where some alternative (with its continuation) matches; `.` cannot
skip past a newline. -/
def p3Scan : List Char → Option (List Char × List Char)
  | [] => none
  | c :: rest =>
    match p3Try (c :: rest) with
    | some r => some r
    | none => if c = '\n' then none else p3Scan rest

/-- Pattern 3: `^(?P<mon>Jan|…|Dec)\s+(?P<day>\d{1,2})\s+(?P<time>\d{2}:\d{2}:\d{2}).*?(?P<level>INFO|…|\[WARN\]).*?\s(?P<msg>[^\r\n]*)$`.
Month names are three letters and pairwise non-overlapping, so at most one
matches.  Returns the `mon`, `day`, `time`, `level` and `msg` captures. -/
def p3Match (l : List Char) :
    Option (List Char × List Char × List Char × List Char × List Char) :=
  match monNames.find? (fun t => t.isPrefixOf l) with
  | none => none
  | some mon =>
  match ws1 (l.drop 3) with
  | none => none
  | some s =>
  match p3Day s with
  | none => none
  | some (dayDs, s) =>
  match ws1 s with
  | none => none
  | some s =>
  match p3Time s with
  | none => none
  | some (time, s) =>
  match p3Scan s with
  | none => none
  | some (lvl, msg) => some (mon, dayDs, time, lvl, msg)

/-! ### Level normalization and `parse_line` -/

/-- Is the character one of the bracket characters trimmed by `parse_level`? -/
def isBracketChar (c : Char) : Bool := c = '[' ∨ c = ']'

/-- src/parse.rs `parse_level`: trim all leading and trailing `[`/`]`
characters (Rust `trim_matches`), ASCII-uppercase (Rust `to_ascii_uppercase`;
`Char.toUpper` is exactly the ASCII case map), then match `ERROR` and
`WARNING`/`WARN`, any other token defaulting to `Info`. -/
def parse_level (s : List Char) : Level :=
  let t := (((s.dropWhile isBracketChar).reverse.dropWhile isBracketChar).reverse).map Char.toUpper
  if t = "ERROR".data then Level.error
  else if t = "WARNING".data ∨ t = "WARN".data then Level.warning
  else Level.info

/-- src/parse.rs `mon_to_num`: month name to month number, defaulting to 1. -/
def mon_to_num (mon : List Char) : Nat :=
  if mon = "Jan".data then 1
  else if mon = "Feb".data then 2
  else if mon = "Mar".data then 3
  else if mon = "Apr".data then 4
  else if mon = "May".data then 5
  else if mon = "Jun".data then 6
  else if mon = "Jul".data then 7
  else if mon = "Aug".data then 8
  else if mon = "Sep".data then 9
  else if mon = "Oct".data then 10
  else if mon = "Nov".data then 11
  else if mon = "Dec".data then 12
  else 1

/-- Rust `{:02}` formatting of a number: zero-padded to width two. -/
def pad2c (n : Nat) : List Char := if n < 10 then '0' :: (Nat.repr n).data else (Nat.repr n).data

/-- The string `format!("{year}-{m:02}-{d:02} {time}")` built by the pattern-3
branch of `parse_line`. -/
def p3TsStr (year m d : Nat) (time : List Char) : List Char :=
  (Nat.repr year).data ++ '-' :: pad2c m ++ '-' :: pad2c d ++ ' ' :: time

/-- src/parse.rs `DefaultLogParser::parse_line`: try the three patterns in
order; on the first structural match, resolve the timestamp and return a
record (`Ok(Some _)`) or a hard error (`Err _`); if no pattern matches return
`Ok(None)`.  `year` models `Local::now().year()`, the injected clock of the
syslog-style branch (the repository's current years are four-digit, matching
the `%Y` model in `parseYmdHms`). -/
def parse_line (year : Nat) (line : List Char) : Except (List Char) (Option LogEntry) :=
  match p1Match line with
  | some (ts, lvl, msg) =>
    match parse_ts ts with
    | some t => Except.ok (some ⟨t, parse_level lvl, msg⟩)
    | none => Except.error ("Could not parse timestamp: ".data ++ ts)
  | none =>
  match p2Match line with
  | some (ts, lvl, msg) =>
    match parse_ts ts with
    | some t => Except.ok (some ⟨t, parse_level lvl, msg⟩)
    | none => Except.error ("Could not parse timestamp: ".data ++ ts)
  | none =>
  match p3Match line with
  | some (mon, dayDs, time, lvl, msg) =>
    let day := digitsToNat dayDs
    let tsStr := p3TsStr year (mon_to_num mon) day time
    match parseYmdHms ' ' false tsStr with
    | some t => Except.ok (some ⟨t, parse_level lvl, msg⟩)
    | none => Except.error ("Failed to parse datetime: ".data ++ tsStr)
  | none => Except.ok none

theorem parse_line_p1_roundtrip : parse_line 2025 ("2025-09-05 14:32:10,123 INFO hello".data)
    = Except.ok (some ⟨⟨2025, 9, 5, 14, 32, 10, 123000000⟩, Level.info, "hello".data⟩) := by decide
theorem parse_line_p2_roundtrip : parse_line 2025 ("2025-09-05T14:32:10Z [WARNING] disk low".data)
    = Except.ok (some ⟨⟨2025, 9, 5, 14, 32, 10, 0⟩, Level.warning, "disk low".data⟩) := by decide
theorem parse_line_p3_roundtrip : parse_line 2025 ("Sep  5 14:32:10 host app[123]: [ERROR] boom".data)
    = Except.ok (some ⟨⟨2025, 9, 5, 14, 32, 10, 0⟩, Level.error, "boom".data⟩) := by decide
theorem parse_line_unmatched : parse_line 2025 ("this is not a log line".data) = Except.ok none := by decide
theorem parse_line_lowercase_level : parse_line 2025 ("2025-09-05 14:32:10 info hello".data) = Except.ok none := by decide
theorem parse_line_unknown_level : parse_line 2025 ("2025-09-05 14:32:10 DEBUG hello".data) = Except.ok none := by decide
theorem parse_line_offset_hard_failure : parse_line 2025 ("2025-09-05T14:32:10+02:00 [WARNING] disk low".data)
    = Except.error ("Could not parse timestamp: 2025-09-05T14:32:10+02:00".data) := by decide

/-! ### The streaming analyzer (src/analyze.rs) -/

/-- Histogram bucket width (src/analyze.rs `enum Granularity`). -/
inductive Granularity where
  | minute
  | hour
  | day
deriving DecidableEq, Repr

/-- User filters (src/analyze.rs `struct Filters`; `from`/`to` are renamed
`fromTime`/`toTime` because `from` is a Lean keyword).  They are constructed at
the program's edges; `build_summary` receives but ignores them, and no
aggregation function consults them (mirroring the source, where neither
`consume_file` nor `consume_entry` mentions `Filters`). -/
structure Filters where
  keyword : Option (List Char)
  fromTime : Option NaiveDateTime
  toTime : Option NaiveDateTime
  level : Option Level
deriving DecidableEq, Repr

/-- src/analyze.rs `struct Analyzer`.  `timeline` models the `BTreeMap` as an
association list kept sorted ascending by key; `error_messages` models the
`HashMap`, whose iteration order Rust leaves unspecified, by an association
list in the same canonical key-ascending order (`build_summary` re-sorts it
with a total comparator, so no observable value depends on this choice). -/
structure Analyzer where
  granularity : Granularity
  info : Nat
  warning : Nat
  error : Nat
  malformed_lines : Nat
  first : Option NaiveDateTime
  last : Option NaiveDateTime
  timeline : List (NaiveDateTime × Nat)
  error_messages : List (List Char × Nat)
deriving DecidableEq, Repr

/-- src/analyze.rs `Analyzer::new`: all counters zero, no timestamps, empty
maps (the `Default` derive). -/
def Analyzer.new (g : Granularity) : Analyzer := ⟨g, 0, 0, 0, 0, none, none, [], []⟩

/-- src/analyze.rs `Analyzer::bucket`: truncate a timestamp down to the start
of its granularity unit (`with_second(0)`/`with_minute(0)`/… always succeed on
the zero argument; `Day` rebuilds the date at midnight, which zeroes exactly
the time-of-day fields). -/
def Analyzer.bucket (g : Granularity) (ts : NaiveDateTime) : NaiveDateTime :=
  match g with
  | Granularity.minute => { ts with second := 0, nano := 0 }
  | Granularity.hour => { ts with minute := 0, second := 0, nano := 0 }
  | Granularity.day => { ts with hour := 0, minute := 0, second := 0, nano := 0 }

/-- Insert-or-increment in a key-sorted association list: models
`*map.entry(k).or_default() += 1` (insert `0` if absent, then add one). -/
def incrMap {K : Type} [LinearOrder K] (k : K) : List (K × Nat) → List (K × Nat)
  | [] => [(k, 1)]
  | (k', v) :: rest =>
    if k = k' then (k', v + 1) :: rest
    else if k < k' then (k, 1) :: (k', v) :: rest
    else (k', v) :: incrMap k rest

/-- src/analyze.rs `Analyzer::consume_entry`: bump the level counter, extend
`first`/`last` by `min`/`max` (Rust `map_or(e.ts, |cur| cur.min(e.ts))`),
increment the timeline bucket, and for `Error` records the message-frequency
entry. -/
def Analyzer.consume_entry (a : Analyzer) (e : LogEntry) : Analyzer :=
  let a1 :=
    match e.level with
    | Level.info => { a with info := a.info + 1 }
    | Level.warning => { a with warning := a.warning + 1 }
    | Level.error => { a with error := a.error + 1 }
  let a2 := { a1 with
    first := some (a1.first.elim e.ts (fun cur => min cur e.ts)),
    last := some (a1.last.elim e.ts (fun cur => max cur e.ts)),
    timeline := incrMap (Analyzer.bucket a1.granularity e.ts) a1.timeline }
  if e.level = Level.error then
    { a2 with error_messages := incrMap e.message a2.error_messages }
  else a2

/-- One iteration of the `consume_file` loop body for a successfully read
line: `Ok(Some(entry))` is consumed, `Ok(None)` and `Err(_)` from `parse_line`
increment `malformed_lines`. -/
def Analyzer.consumeLineStep (year : Nat) (a : Analyzer) (line : List Char) : Analyzer :=
  match parse_line year line with
  | Except.ok (some e) => a.consume_entry e
  | Except.ok none => { a with malformed_lines := a.malformed_lines + 1 }
  | Except.error _ => { a with malformed_lines := a.malformed_lines + 1 }

/-- Consuming a list of successfully read lines in order. -/
def Analyzer.consumeLines (year : Nat) (a : Analyzer) (lines : List (List Char)) : Analyzer :=
  lines.foldl (Analyzer.consumeLineStep year) a

/-- src/analyze.rs `Analyzer::consume_file` after the file has been opened:
`BufReader::lines()` yields per-line read results, and `let line = line?;`
propagates an I/O read error immediately, aborting the loop and returning
`Err` with the state as already mutated through `&mut self`.  Only
`parse_line` failures are counted as malformed.  Returns the final state
together with the propagated error, if any. -/
def Analyzer.consumeReadResults (year : Nat) (a : Analyzer) :
    List (Except (List Char) (List Char)) → Analyzer × Option (List Char)
  | [] => (a, none)
  | Except.error e :: _ => (a, some e)
  | Except.ok line :: rest =>
    Analyzer.consumeReadResults year (a.consumeLineStep year line) rest

/-! ### The summary builder (src/report.rs) -/

/-- src/report.rs `struct Counts`. -/
structure Counts where
  info : Nat
  warning : Nat
  error : Nat
deriving DecidableEq, Repr

/-- src/report.rs `struct JsonSummary`. -/
structure JsonSummary where
  total_entries : Nat
  counts : Counts
  malformed_lines : Nat
  first_log : Option (List Char)
  last_log : Option (List Char)
  common_errors : List (List Char × Nat)
  timeline : List (List Char × Nat)
deriving DecidableEq, Repr

/-- Zero-padded four-digit rendering (chrono `%Y` on the years in range). -/
def pad4c (n : Nat) : List Char :=
  if n < 10 then '0' :: '0' :: '0' :: (Nat.repr n).data
  else if n < 100 then '0' :: '0' :: (Nat.repr n).data
  else if n < 1000 then '0' :: (Nat.repr n).data
  else (Nat.repr n).data

/-- chrono rendering with format `%Y-%m-%d %H:%M:%S`. -/
def fmtTs (t : NaiveDateTime) : List Char :=
  pad4c t.year ++ '-' :: pad2c t.month ++ '-' :: pad2c t.day ++ ' ' ::
    pad2c t.hour ++ ':' :: pad2c t.minute ++ ':' :: pad2c t.second

/-- The comparator of `build_summary`'s sort, `b.1.cmp(&a.1).then_with(|| a.0.cmp(&b.0))`,
read as "a may stay before b" (`cmp` is not `Greater`): count descending, ties
broken by message ascending (lexicographic on the raw string). -/
def errLe (a b : List Char × Nat) : Bool :=
  decide (b.2 < a.2 ∨ (a.2 = b.2 ∧ a.1 ≤ b.1))

/-- src/report.rs `build_summary`: a pure function of the final state; the
`_filters` argument is received and ignored.  `sort_by` is Rust's stable sort,
modelled by the stable `List.mergeSort` with the same comparator; since the
comparator is total and distinguishes any two distinct map entries, `HashMap`
iteration order cannot influence the sorted result. -/
def build_summary (an : Analyzer) (_filters : Filters) : JsonSummary :=
  { total_entries := an.info + an.warning + an.error
    counts := ⟨an.info, an.warning, an.error⟩
    malformed_lines := an.malformed_lines
    first_log := an.first.map fmtTs
    last_log := an.last.map fmtTs
    common_errors := (an.error_messages.mergeSort errLe).take 10
    timeline := an.timeline.map (fun p => (fmtTs p.1, p.2)) }

/-- Did `parse_line` produce a record for this line? -/
def parsesOk (year : Nat) (line : List Char) : Bool :=
  match parse_line year line with
  | Except.ok (some _) => true
  | _ => false

/-- Sum of the multiplicities of an association-list map. -/
def sumVals {K : Type} (m : List (K × Nat)) : Nat := (m.map Prod.snd).sum

/-- The first/last bookkeeping invariant of an analyzer state: the two
optional timestamps are present together, and ordered when present. -/
def FirstLastInv (a : Analyzer) : Prop :=
  (a.first = none ↔ a.last = none)
    ∧ ∀ x y, a.first = some x → a.last = some y → x ≤ y

/-! ### Claims -/

theorem sumVals_incrMap {K : Type} [LinearOrder K] (k : K) (m : List (K × Nat)) :
    sumVals (incrMap k m) = sumVals m + 1 := by
  induction m with
  | nil => simp [incrMap, sumVals]
  | cons p rest ih =>
    obtain ⟨k', v⟩ := p
    by_cases h : k = k'
    · simp [incrMap, h, sumVals]
      omega
    · by_cases h2 : k < k'
      · simp [incrMap, h, h2, sumVals]
        omega
      · simp only [incrMap, if_neg h, if_neg h2]
        simp only [sumVals, List.map_cons, List.sum_cons] at *
        omega

/-- Field-wise description of `consume_entry`, letting later proofs treat the
three level branches uniformly. -/
theorem consume_entry_def (a : Analyzer) (e : LogEntry) :
    a.consume_entry e =
      { granularity := a.granularity
        info := a.info + (if e.level = Level.info then 1 else 0)
        warning := a.warning + (if e.level = Level.warning then 1 else 0)
        error := a.error + (if e.level = Level.error then 1 else 0)
        malformed_lines := a.malformed_lines
        first := some (a.first.elim e.ts (fun cur => min cur e.ts))
        last := some (a.last.elim e.ts (fun cur => max cur e.ts))
        timeline := incrMap (Analyzer.bucket a.granularity e.ts) a.timeline
        error_messages :=
          if e.level = Level.error then incrMap e.message a.error_messages
          else a.error_messages } := by
  cases h : e.level <;> simp [Analyzer.consume_entry, h]

theorem consume_entry_first_last (a : Analyzer) (e : LogEntry) :
    FirstLastInv a → FirstLastInv (a.consume_entry e) := by
  intro ⟨hiff, hord⟩
  rw [consume_entry_def]
  refine ⟨by simp, ?_⟩
  intro x y hx hy
  simp only [Option.some.injEq] at hx hy
  cases ha : a.first with
  | none =>
    have hb : a.last = none := hiff.mp ha
    rw [ha] at hx; rw [hb] at hy
    simp [Option.elim] at hx hy
    subst hx; subst hy; exact le_refl _
  | some f =>
    cases hb : a.last with
    | none => exact absurd (hiff.mpr hb) (by simp [ha])
    | some lst =>
      rw [ha] at hx; rw [hb] at hy
      simp [Option.elim] at hx hy
      subst hx; subst hy
      calc min f e.ts ≤ f := min_le_left _ _
        _ ≤ lst := hord f lst ha hb
        _ ≤ max lst e.ts := le_max_left _ _

theorem consumeLineStep_effect (year : Nat) (a : Analyzer) (l : List Char) :
    ((a.consumeLineStep year l).info + (a.consumeLineStep year l).warning
        + (a.consumeLineStep year l).error
      = a.info + a.warning + a.error + (if parsesOk year l then 1 else 0))
    ∧ ((a.consumeLineStep year l).malformed_lines + (if parsesOk year l then 1 else 0)
      = a.malformed_lines + 1)
    ∧ (sumVals (a.consumeLineStep year l).timeline
      = sumVals a.timeline + (if parsesOk year l then 1 else 0))
    ∧ (FirstLastInv a → FirstLastInv (a.consumeLineStep year l)) := by
  unfold Analyzer.consumeLineStep parsesOk
  cases hp : parse_line year l with
  | error err => simp [FirstLastInv]
  | ok v =>
    cases v with
    | none => simp [FirstLastInv]
    | some e =>
      dsimp only
      refine ⟨?_, ?_, ?_, consume_entry_first_last a e⟩
      · rw [consume_entry_def]
        cases he : e.level <;> simp [he] <;> omega
      · rw [consume_entry_def]
        simp
      · rw [consume_entry_def]
        simp [sumVals_incrMap]

theorem consumeLines_effect (year : Nat) (L : List (List Char)) : ∀ a : Analyzer,
    ((Analyzer.consumeLines year a L).info + (Analyzer.consumeLines year a L).warning
        + (Analyzer.consumeLines year a L).error
      = a.info + a.warning + a.error + L.countP (parsesOk year))
    ∧ ((Analyzer.consumeLines year a L).malformed_lines + L.countP (parsesOk year)
      = a.malformed_lines + L.length)
    ∧ (sumVals (Analyzer.consumeLines year a L).timeline
      = sumVals a.timeline + L.countP (parsesOk year))
    ∧ (FirstLastInv a → FirstLastInv (Analyzer.consumeLines year a L)) := by
  induction L with
  | nil =>
    intro a
    simp [Analyzer.consumeLines]
  | cons l t ih =>
    intro a
    obtain ⟨h1, h2, h3, h4⟩ := consumeLineStep_effect year a l
    obtain ⟨g1, g2, g3, g4⟩ := ih (a.consumeLineStep year l)
    simp only [Analyzer.consumeLines, List.foldl_cons] at *
    rw [List.countP_cons]
    exact ⟨by omega, by simp only [List.length_cons]; omega, by omega, fun hi => g4 (h4 hi)⟩

theorem errLe_trans (a b c : List Char × Nat) : errLe a b → errLe b c → errLe a c := by
  simp only [errLe, decide_eq_true_eq]
  intro h1 h2
  rcases h1 with h1 | ⟨h1, h1'⟩ <;> rcases h2 with h2 | ⟨h2, h2'⟩
  · exact Or.inl (by omega)
  · exact Or.inl (by omega)
  · exact Or.inl (by omega)
  · exact Or.inr ⟨by omega, h1'.trans h2'⟩

theorem errLe_total (a b : List Char × Nat) : errLe a b || errLe b a := by
  simp only [errLe, Bool.or_eq_true, decide_eq_true_eq]
  rcases lt_trichotomy a.2 b.2 with h | h | h
  · exact Or.inr (Or.inl h)
  · rcases le_total a.1 b.1 with h2 | h2
    · exact Or.inl (Or.inr ⟨h, h2⟩)
    · exact Or.inr (Or.inr ⟨h.symm, h2⟩)
  · exact Or.inl (Or.inl h)

/-- C8: the summary's top-error list consists of the error-frequency map's
entries sorted by count descending with ties broken by message text ascending
(lexicographic), truncated to ten: it is the 10-prefix of a sorted permutation
of the map's entries, and its length is exactly `min 10` the number of
entries (the distinct error messages). -/
theorem c8_top_errors_sorted_top10 (an : Analyzer) (f : Filters) :
    ∃ l : List (List Char × Nat),
      an.error_messages.Perm l
      ∧ l.Pairwise (fun x y => errLe x y)
      ∧ (build_summary an f).common_errors = l.take 10
      ∧ (build_summary an f).common_errors.length = min 10 an.error_messages.length := by
  refine ⟨an.error_messages.mergeSort errLe, (List.mergeSort_perm _ _).symm,
    List.sorted_mergeSort errLe_trans errLe_total _, rfl, ?_⟩
  simp [build_summary]

/-- C7: after consuming any sequence of lines into a fresh analyzer,
info + warning + error equals the number of successfully parsed lines; that
number plus `malformed_lines` equals the total lines seen; the timeline bucket
values sum to the record count; and `first ≤ last` whenever both are present. -/
theorem c7_invariants (year : Nat) (g : Granularity) (L : List (List Char)) :
    ((Analyzer.consumeLines year (Analyzer.new g) L).info
        + (Analyzer.consumeLines year (Analyzer.new g) L).warning
        + (Analyzer.consumeLines year (Analyzer.new g) L).error
      = L.countP (parsesOk year))
    ∧ ((Analyzer.consumeLines year (Analyzer.new g) L).malformed_lines
        + L.countP (parsesOk year) = L.length)
    ∧ (sumVals (Analyzer.consumeLines year (Analyzer.new g) L).timeline
      = (Analyzer.consumeLines year (Analyzer.new g) L).info
        + (Analyzer.consumeLines year (Analyzer.new g) L).warning
        + (Analyzer.consumeLines year (Analyzer.new g) L).error)
    ∧ ∀ x y, (Analyzer.consumeLines year (Analyzer.new g) L).first = some x →
        (Analyzer.consumeLines year (Analyzer.new g) L).last = some y → x ≤ y := by
  obtain ⟨h1, h2, h3, h4⟩ := consumeLines_effect year L (Analyzer.new g)
  have hnew : FirstLastInv (Analyzer.new g) := ⟨by simp [Analyzer.new], by simp [Analyzer.new]⟩
  refine ⟨?_, ?_, ?_, (h4 hnew).2⟩
  · simpa [Analyzer.new] using h1
  · simpa [Analyzer.new] using h2
  · simp only [Analyzer.new, sumVals, List.map_nil, List.sum_nil, zero_add] at h3 h1 ⊢
    omega

/-- C7 witness at a concrete three-line input (one Info record, one malformed
line, one Error record). -/
theorem c7_invariants_w :
    ((Analyzer.consumeLines 2025 (Analyzer.new Granularity.hour)
        ["2025-09-05 14:32:10 INFO a".data, "bad".data,
          "2025-09-05 15:00:00 ERROR b".data]).first = some ⟨2025, 9, 5, 14, 32, 10, 0⟩)
    ∧ (⟨2025, 9, 5, 14, 32, 10, 0⟩ : NaiveDateTime) ≤ ⟨2025, 9, 5, 15, 0, 0, 0⟩ :=
  ⟨by decide,
    (c7_invariants 2025 Granularity.hour
        ["2025-09-05 14:32:10 INFO a".data, "bad".data,
          "2025-09-05 15:00:00 ERROR b".data]).2.2.2
      ⟨2025, 9, 5, 14, 32, 10, 0⟩ ⟨2025, 9, 5, 15, 0, 0, 0⟩ (by decide) (by decide)⟩

theorem incrMap_comm {K : Type} [LinearOrder K] (k1 k2 : K) (m : List (K × Nat)) :
    incrMap k1 (incrMap k2 m) = incrMap k2 (incrMap k1 m) := by
  induction m with
  | nil =>
    rcases lt_trichotomy k1 k2 with h | h | h
    · simp [incrMap, h, h.ne, h.ne', h.asymm]
    · subst h; rfl
    · simp [incrMap, h, h.ne, h.ne', h.asymm]
  | cons p rest ih =>
    obtain ⟨k', v⟩ := p
    by_cases e1 : k1 = k'
    · subst e1
      by_cases e2 : k2 = k1
      · subst e2; rfl
      · rcases lt_or_gt_of_ne e2 with h | h
        · simp [incrMap, h, h.ne, h.ne', h.asymm]
        · simp [incrMap, h, h.ne, h.ne', h.asymm]
    · by_cases e2 : k2 = k'
      · subst e2
        rcases lt_or_gt_of_ne e1 with h | h
        · simp [incrMap, h, h.ne, h.ne', h.asymm]
        · simp [incrMap, h, h.ne, h.ne', h.asymm]
      · rcases lt_trichotomy k1 k' with a1 | a1 | a1
        · rcases lt_trichotomy k2 k' with a2 | a2 | a2
          · rcases lt_trichotomy k1 k2 with b | b | b
            · simp [incrMap, e1, e2, a1, a2, b, b.ne, b.ne', b.asymm]
            · subst b; simp [incrMap, e1, a1]
            · simp [incrMap, e1, e2, a1, a2, b, b.ne, b.ne', b.asymm]
          · exact absurd a2 e2
          · have b : k1 < k2 := a1.trans a2
            simp [incrMap, e1, e2, a1, a2.asymm, b.ne, b.ne', b.asymm]
        · exact absurd a1 e1
        · rcases lt_trichotomy k2 k' with a2 | a2 | a2
          · have b : k2 < k1 := a2.trans a1
            simp [incrMap, e1, e2, a1.asymm, a2, b.ne, b.ne', b.asymm]
          · exact absurd a2 e2
          · simp [incrMap, e1, e2, a1.asymm, a2.asymm, ih]

theorem consume_entry_comm (a : Analyzer) (e1 e2 : LogEntry) :
    (a.consume_entry e1).consume_entry e2 = (a.consume_entry e2).consume_entry e1 := by
  simp only [consume_entry_def, Analyzer.mk.injEq, and_true, true_and]
  refine ⟨by omega, by omega, by omega, ?_, ?_, incrMap_comm _ _ _, ?_⟩
  · cases a.first <;> simp [Option.elim, min_comm, min_left_comm]
  · cases a.last <;> simp [Option.elim, max_comm, max_left_comm]
  · split_ifs <;> simp [incrMap_comm]

theorem consume_entry_malformed (a : Analyzer) (e : LogEntry) :
    Analyzer.consume_entry { a with malformed_lines := a.malformed_lines + 1 } e
      = { a.consume_entry e with
          malformed_lines := (a.consume_entry e).malformed_lines + 1 } := by
  simp [consume_entry_def]

theorem consumeLineStep_comm (year : Nat) (a : Analyzer) (l1 l2 : List Char) :
    (a.consumeLineStep year l1).consumeLineStep year l2
      = (a.consumeLineStep year l2).consumeLineStep year l1 := by
  unfold Analyzer.consumeLineStep
  cases h1 : parse_line year l1 with
  | ok v1 =>
    cases h2 : parse_line year l2 with
    | ok v2 =>
      cases v1 with
      | some e1 =>
        cases v2 with
        | some e2 => exact consume_entry_comm a e1 e2
        | none => exact (consume_entry_malformed a e1).symm
      | none =>
        cases v2 with
        | some e2 => exact consume_entry_malformed a e2
        | none => rfl
    | error err2 =>
      cases v1 with
      | some e1 => exact (consume_entry_malformed a e1).symm
      | none => rfl
  | error err1 =>
    cases h2 : parse_line year l2 with
    | ok v2 =>
      cases v2 with
      | some e2 => exact consume_entry_malformed a e2
      | none => rfl
    | error err2 => rfl

theorem consumeLines_step_comm (year : Nat) (l : List Char) (L : List (List Char)) :
    ∀ a : Analyzer, Analyzer.consumeLines year (a.consumeLineStep year l) L
      = (Analyzer.consumeLines year a L).consumeLineStep year l := by
  induction L with
  | nil => intro a; rfl
  | cons x t ih =>
    intro a
    simp only [Analyzer.consumeLines, List.foldl_cons] at *
    rw [consumeLineStep_comm year a l x]
    exact ih _

theorem consumeLines_comm (year : Nat) (L1 L2 : List (List Char)) :
    ∀ a : Analyzer, Analyzer.consumeLines year (Analyzer.consumeLines year a L1) L2
      = Analyzer.consumeLines year (Analyzer.consumeLines year a L2) L1 := by
  induction L1 with
  | nil => intro a; rfl
  | cons l t ih =>
    intro a
    have step1 : Analyzer.consumeLines year a (l :: t)
        = Analyzer.consumeLines year (a.consumeLineStep year l) t := rfl
    rw [step1, ih (a.consumeLineStep year l), consumeLines_step_comm]
    rfl

theorem consumeLines_append (year : Nat) (a : Analyzer) (L1 L2 : List (List Char)) :
    Analyzer.consumeLines year a (L1 ++ L2)
      = Analyzer.consumeLines year (Analyzer.consumeLines year a L1) L2 := by
  simp only [Analyzer.consumeLines, List.foldl_append]

/-- C6: consuming two line sequences in either order and finalizing yields the
same summary — the aggregation steps commute (pointwise-sum counts and maps,
min/max first/last), so the analyzer state itself, and hence the summary, is
independent of the order of the two batches. -/
theorem c6_summary_order_independent (year : Nat) (g : Granularity) (f : Filters)
    (L1 L2 : List (List Char)) :
    build_summary (Analyzer.consumeLines year (Analyzer.new g) (L1 ++ L2)) f
      = build_summary (Analyzer.consumeLines year (Analyzer.new g) (L2 ++ L1)) f := by
  rw [consumeLines_append, consumeLines_append, consumeLines_comm]

/-- C1: the summary produced from a finalized analyzer state does not depend
on the filters — `build_summary` ignores its `Filters` argument entirely, and
the streaming aggregation (`consume_entry`, `consumeLineStep`, the
`consume_file` loop) takes no filter argument at all, so counts, timeline,
first/last and error frequencies reflect the unfiltered input. -/
theorem build_summary_filters_irrelevant (an : Analyzer) (f1 f2 : Filters) :
    build_summary an f1 = build_summary an f2 := rfl

/-- C2 counterexample: parsing `"2025-09-05 14:32:10,123 INFO hello"` does not
yield a record whose timestamp is exactly `2025-09-05 14:32:10` — the
comma-separated fractional part is parsed into the record's nanosecond field
(123 ms), not discarded. -/
theorem c2_fraction_not_discarded :
    parse_line 2025 ("2025-09-05 14:32:10,123 INFO hello".data)
      ≠ Except.ok (some ⟨⟨2025, 9, 5, 14, 32, 10, 0⟩, Level.info, "hello".data⟩) := by
  decide

/-- C2 amended: parsing the line succeeds with level Info and message
`"hello"`; the comma-separated fractional part is accepted and retained in the
record's timestamp (nanosecond field `123000000`), whose other fields are
`2025-09-05 14:32:10`; the fraction disappears only when the timestamp is
rendered (`%Y-%m-%d %H:%M:%S`). -/
theorem c2_fraction_kept_in_record :
    parse_line 2025 ("2025-09-05 14:32:10,123 INFO hello".data)
        = Except.ok (some ⟨⟨2025, 9, 5, 14, 32, 10, 123000000⟩, Level.info, "hello".data⟩)
      ∧ fmtTs ⟨2025, 9, 5, 14, 32, 10, 123000000⟩ = "2025-09-05 14:32:10".data := by
  constructor
  · decide
  · decide

/-- C3 counterexample: a line carrying the level token in lowercase is not
recognized — `parse_line` returns `Ok(None)` (counted as malformed), because
the pattern shapes only match the uppercase tokens, contradicting the claim
that any letter case is recognized and that other tokens default to Info. -/
theorem c3_lowercase_level_unmatched :
    parse_line 2025 ("2025-09-05 14:32:10 info hello".data) = Except.ok none := by
  decide

/-- C3 amended: the token normalizer `parse_level` itself is case-insensitive
(`WARN`/`WARNING` in any case map to Warning, brackets are trimmed, and any
unrecognized token defaults to Info), but the pattern shapes of `parse_line`
only match the uppercase tokens `INFO`/`ERROR`/`WARNING`/`WARN`; a line whose
severity token is lowercase or unrecognized matches no pattern and is reported
malformed (`Ok(None)`), not parsed with a defaulted level. -/
theorem c3_parse_level_insensitive_shapes_uppercase :
    parse_level ("warn".data) = Level.warning
      ∧ parse_level ("WaRnInG".data) = Level.warning
      ∧ parse_level ("[error]".data) = Level.error
      ∧ parse_level ("Error".data) = Level.error
      ∧ parse_level ("DEBUG".data) = Level.info
      ∧ parse_level ("debug".data) = Level.info
      ∧ parse_level ("TRACE".data) = Level.info
      ∧ parse_line 2025 ("2025-09-05 14:32:10 DEBUG hello".data) = Except.ok none
      ∧ parse_line 2025 ("2025-09-05T14:32:10Z [warning] disk low".data) = Except.ok none := by
  refine ⟨by decide, by decide, by decide, by decide, by decide, by decide, by decide, ?_, ?_⟩
  · decide
  · decide

/-- C4 counterexample: when the line stream yields an I/O-level read failure,
`consume_file` does not increment `malformedCount` and does not continue: the
run aborts with the error, the failing line leaves the malformed counter at 0,
and the following (parseable) line is never consumed. -/
theorem c4_read_error_aborts :
    Analyzer.consumeReadResults 2025 (Analyzer.new Granularity.hour)
        [Except.error ("io".data), Except.ok ("2025-09-05 14:32:10 INFO hello".data)]
      = (Analyzer.new Granularity.hour, some ("io".data)) := by
  decide

/-- C4 amended: an I/O-level read failure for a line aborts `consume_file`
immediately, returning the error with the state untouched by that line;
`malformedCount` is incremented (and consumption continues) only for lines
that are read successfully but fail to parse. -/
theorem c4_read_vs_parse_failure (year : Nat) (a : Analyzer) (e : List Char)
    (rest : List (Except (List Char) (List Char))) (line : List Char)
    (h : parse_line year line = Except.ok none) :
    Analyzer.consumeReadResults year a (Except.error e :: rest) = (a, some e)
      ∧ Analyzer.consumeReadResults year a (Except.ok line :: rest)
        = Analyzer.consumeReadResults year
            { a with malformed_lines := a.malformed_lines + 1 } rest := by
  constructor
  · rfl
  · simp only [Analyzer.consumeReadResults, Analyzer.consumeLineStep, h]

/-- C4 amended, witness at a concrete input. -/
theorem c4_read_vs_parse_failure_w :
    parse_line 2025 ("oops".data) = Except.ok none
      ∧ Analyzer.consumeReadResults 2025 (Analyzer.new Granularity.hour)
          [Except.error ("io".data)] = (Analyzer.new Granularity.hour, some ("io".data)) :=
  ⟨by decide,
    (c4_read_vs_parse_failure 2025 (Analyzer.new Granularity.hour) ("io".data) []
      ("oops".data) (by decide)).1⟩

/-- C5 counterexample: a line whose ISO timestamp carries an offset marker
`+02:00` structurally matches pattern 2, but timestamp resolution fails (the
fallback only strips a `Z` marker), so the line is a hard parse failure —
contradicting the claim that resolution succeeds for offset markers. -/
theorem c5_offset_marker_fails :
    parse_line 2025 ("2025-09-05T14:32:10+02:00 [WARNING] disk low".data)
      = Except.error ("Could not parse timestamp: 2025-09-05T14:32:10+02:00".data) := by
  decide

/-- C5 amended: only the `Z` timezone marker is recognized (stripped by the
`split_once('Z')` fallback) — `"2025-09-05T14:32:10Z [WARNING] disk low"`
resolves to the naive date-time with the marker discarded, level Warning,
message `"disk low"`; an offset marker `±HH:MM` matches pattern 2's shape but
fails timestamp resolution, leaving the line malformed. -/
theorem c5_z_marker_stripped :
    parse_line 2025 ("2025-09-05T14:32:10Z [WARNING] disk low".data)
        = Except.ok (some ⟨⟨2025, 9, 5, 14, 32, 10, 0⟩, Level.warning, "disk low".data⟩)
      ∧ parse_ts ("2025-09-05T14:32:10-07:00".data) = none := by
  constructor
  · decide
  · decide

/-- C9: once a pattern's shape matches structurally, a timestamp-resolution
failure for that line is a hard parse failure (`Err`), and `parse_line` never
falls through to a later pattern: this holds for each of the three patterns in
their priority order (for pattern 3, resolution is the re-parse of the
formatted `{year}-{m:02}-{d:02} {time}` string). -/
theorem c9_ts_failure_no_fallthrough (year : Nat) (line : List Char) :
    (∀ ts lvl msg, p1Match line = some (ts, lvl, msg) → parse_ts ts = none →
      parse_line year line = Except.error ("Could not parse timestamp: ".data ++ ts))
    ∧ (p1Match line = none → ∀ ts lvl msg, p2Match line = some (ts, lvl, msg) →
        parse_ts ts = none →
        parse_line year line = Except.error ("Could not parse timestamp: ".data ++ ts))
    ∧ (p1Match line = none → p2Match line = none →
        ∀ mon dayDs time lvl msg, p3Match line = some (mon, dayDs, time, lvl, msg) →
        parseYmdHms ' ' false (p3TsStr year (mon_to_num mon) (digitsToNat dayDs) time) = none →
        parse_line year line = Except.error
          ("Failed to parse datetime: ".data
            ++ p3TsStr year (mon_to_num mon) (digitsToNat dayDs) time)) := by
  refine ⟨?_, ?_, ?_⟩
  · intro ts lvl msg h1 h2
    simp only [parse_line, h1, h2]
  · intro h0 ts lvl msg h1 h2
    simp only [parse_line, h0, h1, h2]
  · intro h0 h0' mon dayDs time lvl msg h1 h2
    simp only [parse_line, h0, h0', h1, h2]

/-- C9 witness: `"2025-13-05 14:32:10 INFO x"` structurally matches pattern 1
but month 13 fails resolution, so the line is a hard error. -/
theorem c9_ts_failure_no_fallthrough_w :
    parse_line 2025 ("2025-13-05 14:32:10 INFO x".data)
      = Except.error ("Could not parse timestamp: 2025-13-05 14:32:10".data) :=
  (c9_ts_failure_no_fallthrough 2025 ("2025-13-05 14:32:10 INFO x".data)).1
    ("2025-13-05 14:32:10".data) ("INFO".data) ("x".data) (by decide) (by decide)

/-- C10: `consume_file` is not atomic on error — if the k-th line's read
fails, the returned error is accompanied by exactly the state obtained by
consuming the first k-1 (successfully read) lines; nothing is rolled back and
nothing after the failure is consumed. -/
theorem c10_error_keeps_prefix_state (year : Nat) (a : Analyzer) (e : List Char)
    (pre : List (List Char)) (post : List (Except (List Char) (List Char))) :
    Analyzer.consumeReadResults year a (pre.map Except.ok ++ Except.error e :: post)
      = (Analyzer.consumeLines year a pre, some e) := by
  induction pre generalizing a with
  | nil => rfl
  | cons l t ih =>
    simp only [List.map_cons, List.cons_append, Analyzer.consumeReadResults,
      Analyzer.consumeLines, List.foldl_cons]
    exact ih (a.consumeLineStep year l)

end LogAnalyzer
